import Mathlib

/-
Verification of src/FigSync/monitor.py: a polling file monitor that snapshots
a directory tree, diffs consecutive snapshots into CREATE/UPDATE/DELETE
records, and routes each record through regex-keyed handlers that launch
external scripts with a one second debounce.

Modelling conventions: Python floats (timestamps) are rationals; a Python dict
is an association list in insertion order where assignment to a present key
updates in place and a new key is appended; a raised exception is the error
case of Except String, carrying the exception text, and it propagates exactly
as far as the Python code (which installs no handler anywhere) lets it.
-/

namespace FigSync

/-- The ChangeHandler.Action enum (monitor.py lines 31 to 34). -/
inductive Action where
  | CREATE
  | UPDATE
  | DELETE
  deriving DecidableEq, Repr

/-- The name attribute of an Action enum member. -/
def Action.name : Action → String
  | .CREATE => "CREATE"
  | .UPDATE => "UPDATE"
  | .DELETE => "DELETE"

/-- The fragment of the Python value universe the monitor compares: the diff
stores plain strings such as "CREATE" in the changes dict, while read_handlers
stores Action enum members in handler.actions. Python equality between a str
and an enum member is False, which pyEq mirrors. -/
inductive PyVal where
  | str (s : String)
  | act (a : Action)
  deriving DecidableEq, Repr

/-- Python equality on PyVal: values of different runtime types are unequal. -/
def pyEq : PyVal → PyVal → Bool
  | .str a, .str b => a == b
  | .act a, .act b => a == b
  | _, _ => false

/-- Python membership v in l for a list l of PyVal. -/
def pyMem (v : PyVal) : List PyVal → Bool
  | [] => false
  | w :: rest => pyEq v w || pyMem v rest

/-- Python dict assignment d[k] = v on an insertion-ordered association list:
an existing key keeps its position and gets the new value, a new key is
appended at the end. -/
def dictSet {α : Type} : List (String × α) → String → α → List (String × α)
  | [], k, v => [(k, v)]
  | (k0, v0) :: rest, k, v =>
    if k0 = k then (k, v) :: rest else (k0, v0) :: dictSet rest k v

/-- Python dict lookup d[k] as an Option (none models the KeyError case). -/
def dictGet? {α : Type} : List (String × α) → String → Option α
  | [], _ => none
  | (k0, v0) :: rest, k => if k0 = k then some v0 else dictGet? rest k

/-- Python membership test k in d for a dict d. -/
def dictMem {α : Type} (d : List (String × α)) (k : String) : Bool :=
  (dictGet? d k).isSome

/-- A snapshot: the dict produced by query_last_updates, mapping a relative
path to its last modification time. -/
abbrev Snapshot := List (String × ℚ)

/-- The changes dict produced by get_changes: path to action string. -/
abbrev Changes := List (String × String)

/-- The first loop of Observer.get_changes (lines 94 to 98), over
old_states.items(): when the path is absent from new_states it stores
"DELETE", and then unconditionally evaluates new_states[file_path] for the
timestamp comparison, so an absent path raises KeyError there; a present path
with a strictly larger new timestamp stores "UPDATE". -/
def get_changes_old (new_states : Snapshot) :
    Snapshot → Changes → Except String Changes
  | [], changes => .ok changes
  | (file_path, update_time) :: rest, changes =>
    let changes :=
      if dictMem new_states file_path then changes
      else dictSet changes file_path "DELETE"
    match dictGet? new_states file_path with
    | none => .error ("KeyError: " ++ file_path)
    | some t =>
      let changes :=
        if update_time < t then dictSet changes file_path "UPDATE" else changes
      get_changes_old new_states rest changes

/-- The second loop of Observer.get_changes (lines 100 to 102), over
new_states.items(): a path absent from old_states stores "CREATE". -/
def get_changes_new (old_states : Snapshot) : Snapshot → Changes → Changes
  | [], changes => changes
  | (file_path, _) :: rest, changes =>
    get_changes_new old_states rest
      (if dictMem old_states file_path then changes
       else dictSet changes file_path "CREATE")

/-- Observer.get_changes (monitor.py lines 91 to 103). -/
def get_changes (old_states new_states : Snapshot) : Except String Changes :=
  match get_changes_old new_states old_states [] with
  | .error e => .error e
  | .ok changes => .ok (get_changes_new old_states new_states changes)

/-- Tokens of the regex fragment the configured patterns use: literal
characters, backslash escapes, the dot wildcard, and the end anchor. -/
inductive RTok where
  | lit (c : Char)
  | anyChar
  | endAnchor
  deriving DecidableEq, Repr

/-- Compile a pattern string to tokens: a backslash escapes the next
character to a literal, an unescaped dot matches any character, an unescaped
dollar anchors at the end of the text. -/
def parseRegex : List Char → List RTok
  | [] => []
  | '\\' :: c :: rest => .lit c :: parseRegex rest
  | '\\' :: [] => []
  | '.' :: rest => .anyChar :: parseRegex rest
  | '$' :: rest => .endAnchor :: parseRegex rest
  | c :: rest => .lit c :: parseRegex rest

/-- Match a token list against the text starting at this position. -/
def matchToks : List RTok → List Char → Bool
  | [], _ => true
  | .endAnchor :: ts, [] => matchToks ts []
  | .endAnchor :: _, _ :: _ => false
  | .lit _ :: _, [] => false
  | .anyChar :: _, [] => false
  | .lit c :: ts, x :: xs => c == x && matchToks ts xs
  | .anyChar :: ts, _ :: xs => matchToks ts xs

/-- Try the match at every start position, including the empty suffix. -/
def searchAt (ts : List RTok) : List Char → Bool
  | [] => matchToks ts []
  | x :: xs => matchToks ts (x :: xs) || searchAt ts xs

/-- The unanchored re.search test of monitor.py line 108, restricted to the
regex constructs appearing in this repository and its documented
configurations. -/
def re_search (pattern text : String) : Bool :=
  searchAt (parseRegex pattern.toList) text.toList

/-- The object returned by subprocess.run (monitor.py line 53). -/
structure RunResult where
  returncode : Int
  stdout : String
  stderr : String
  deriving DecidableEq, Repr

/-- The mutable debounce state of a ChangeHandler: last_file starts as None
and last_update as the construction time (lines 42 to 43). -/
structure HandlerState where
  last_file : Option String
  last_update : ℚ
  deriving DecidableEq, Repr

/-- A ChangeHandler as stored in the registry: its accepted actions list and
its script. When built by read_handlers the actions are Action enum members
(PyVal.act); the field type PyVal records that process_changes compares them
with Python equality against the strings of the changes dict. -/
structure Handler where
  actions : List PyVal
  script : String
  deriving DecidableEq, Repr

/-- ChangeHandler.process_update (monitor.py lines 46 to 58). The run
argument models subprocess.run; its error case is the FileNotFoundError or
PermissionError raised when the script cannot be launched, converted to text.
The method first logs the action line, then returns early (suppressing the
launch and the result logs, but after the first log line was already emitted)
when the path equals last_file and under one second elapsed since last_update;
otherwise it overwrites the debounce state and launches the script. A launch
exception propagates uncaught: the invocation ends with no result logs and no
completed launch. The ok result is the new debounce state, the log lines
emitted, and the completed launches as (script, path) pairs. -/
def process_update (run : String → String → Except String RunResult)
    (script : String) (h : HandlerState) (now : ℚ)
    (src_path : String) (action : Action) :
    Except String (HandlerState × List String × List (String × String)) :=
  let logs := ["File " ++ action.name ++ ": " ++ src_path]
  if h.last_file = some src_path ∧ now - h.last_update < 1 then
    .ok (h, logs, [])
  else
    match run script src_path with
    | .error e => .error e
    | .ok result =>
      let logs := logs ++ ["finished with code " ++ toString result.returncode]
      let logs := logs ++
        (if result.stdout ≠ "" then ["output: \n" ++ result.stdout] else [])
      let logs := logs ++
        (if result.stderr ≠ "" then ["error: \n" ++ result.stderr] else [])
      .ok (⟨some src_path, now⟩, logs, [(script, src_path)])

/-- Observer.process_changes (monitor.py lines 105 to 110). For each changes
item and each registered (pattern, handler), when the pattern matches the path
and the action value is a member of handler.actions, the body executes
handler.process_update(file_path): that call omits the required positional
argument action of process_update, so reaching it raises TypeError. The ok
result lists the launches performed; the only launch site is inside the
raising call, so an ok result is always the empty list. -/
def process_changes (changes : List (String × PyVal))
    (handlers : List (String × Handler)) :
    Except String (List (String × String)) :=
  changes.foldl
    (fun acc c =>
      match acc with
      | .error e => .error e
      | .ok launches =>
        handlers.foldl
          (fun acc2 ph =>
            match acc2 with
            | .error e => .error e
            | .ok l =>
              if re_search ph.1 c.1 then
                if pyMem c.2 ph.2.actions then
                  .error "TypeError: process_update missing 1 required positional argument: action"
                else .ok l
              else .ok l)
          (.ok launches))
    (.ok [])

/-- A directory tree entry: a file with its modification time, or a directory
with its own modification time and its listing in os.listdir order. -/
inductive FSEntry where
  | file (mtime : ℚ)
  | dir (mtime : ℚ) (entries : List (String × FSEntry))
  deriving Repr

/-- The os.path.getmtime of an entry; defined on directories as well. -/
def FSEntry.mtime : FSEntry → ℚ
  | .file t => t
  | .dir t _ => t

/-- Observer.query_last_updates (monitor.py lines 78 to 89) over an FSEntry
listing: for each listed name, when recursive is set and the entry is a
directory it first recurses with the prefix extended by a slash, and then in
every case stores prefix plus name with the mtime of the entry, directories
included. The list is the dict in insertion order; keys are distinct because
sibling names are distinct and names contain no slash. -/
def query_last_updates (recursive : Bool) :
    String → List (String × FSEntry) → Snapshot
  | _, [] => []
  | pre, (filename, entry) :: rest =>
    (match entry with
     | .file _ => []
     | .dir _ sub =>
       if recursive then query_last_updates recursive (pre ++ filename ++ "/") sub
       else []) ++
    ((pre ++ filename, entry.mtime) :: query_last_updates recursive pre rest)

/-- One iteration of the while loop body of Observer.__process__ (monitor.py
lines 113 to 120) after the sleep. The fsResult argument is the outcome of
query_last_updates on this tick: the error case is the OSError raised when
the watched path cannot be listed. The body diffs against the baseline
last_updates; when the changes dict is truthy it prints, replaces the
baseline, and dispatches. No exception is caught, so every error propagates
out of the loop and kills the polling thread. The ok result is the baseline
after the tick and whether "changes detected" was printed. -/
def tick (fsResult : Except String Snapshot) (last_updates : Snapshot)
    (handlers : List (String × Handler)) :
    Except String (Snapshot × Bool) :=
  match fsResult with
  | .error e => .error e
  | .ok new_updates =>
    match get_changes last_updates new_updates with
    | .error e => .error e
    | .ok changes =>
      if changes = [] then .ok (last_updates, false)
      else
        match process_changes
            (changes.map (fun kv => (kv.1, PyVal.str kv.2))) handlers with
        | .error e => .error e
        | .ok _ => .ok (new_updates, true)

/-- The polling loop of Observer.__process__ run over a finite schedule of
snapshot-capture outcomes, one per tick. An error result is the uncaught
exception that terminates the polling thread: the remaining ticks never run.
The ok result is the final baseline. -/
def pollLoop (handlers : List (String × Handler)) :
    List (Except String Snapshot) → Snapshot → Except String Snapshot
  | [], last_updates => .ok last_updates
  | fsResult :: rest, last_updates =>
    match tick fsResult last_updates handlers with
    | .error e => .error e
    | .ok st => pollLoop handlers rest st.1

/-- The lifecycle state of an Observer that the start method touches: the
running flag and the number of polling threads created and started over the
lifetime of the object. -/
structure ObserverLifecycle where
  running : Bool
  threadsStarted : Nat
  deriving DecidableEq, Repr

/-- Observer.start (monitor.py lines 122 to 125): it sets running to True and
unconditionally creates and starts a fresh thread on __process__; there is no
check of the current state, and a previously started thread keeps looping
because running stays True. -/
def start (s : ObserverLifecycle) : ObserverLifecycle :=
  { running := true, threadsStarted := s.threadsStarted + 1 }

/-- Observer.add_handler (monitor.py lines 75 to 76): dict assignment of the
handler under its pattern. -/
def add_handler (handlers : List (String × Handler)) (pattern : String)
    (handler : Handler) : List (String × Handler) :=
  dictSet handlers pattern handler

/-- The enum lookup ChangeHandler.Action[action_name] of monitor.py line 171,
raising KeyError on an unknown name. -/
def Action.ofName : String → Except String Action
  | "CREATE" => .ok .CREATE
  | "UPDATE" => .ok .UPDATE
  | "DELETE" => .ok .DELETE
  | s => .error ("KeyError: " ++ s)

/-- One handler record of the configuration file consumed by read_handlers. -/
structure HandlerConfig where
  pattern : String
  actions : List String
  script : String
  deriving DecidableEq, Repr

/-- The loop of read_handlers (monitor.py lines 168 to 174): for each
configured record, convert the action names to enum members and store the
built ChangeHandler in the dict under the configured pattern. -/
def read_handlers_loop :
    List HandlerConfig → List (String × Handler) →
    Except String (List (String × Handler))
  | [], handlers => .ok handlers
  | c :: rest, handlers =>
    match c.actions.mapM Action.ofName with
    | .error e => .error e
    | .ok acts =>
      read_handlers_loop rest
        (dictSet handlers c.pattern ⟨acts.map PyVal.act, c.script⟩)

/-- read_handlers (monitor.py lines 163 to 175), from the already-parsed
configuration records, starting from an empty dict. -/
def read_handlers (configs : List HandlerConfig) :
    Except String (List (String × Handler)) :=
  read_handlers_loop configs []

/-- The snapshot keys that claim C6 predicts, written from the claim text:
only files contribute entries, directories are traversed (when recursive) but
are not themselves entries. -/
def filePaths (recursive : Bool) : String → List (String × FSEntry) → List String
  | _, [] => []
  | pre, (filename, .file _) :: rest =>
    (pre ++ filename) :: filePaths recursive pre rest
  | pre, (filename, .dir _ sub) :: rest =>
    (if recursive then filePaths recursive (pre ++ filename ++ "/") sub else []) ++
    filePaths recursive pre rest

/-- The slash-joined relative paths of every entry of a recursive walk,
directories included, each directory listed after its descendants. -/
def recPaths : String → List (String × FSEntry) → List String
  | _, [] => []
  | pre, (filename, .file _) :: rest => (pre ++ filename) :: recPaths pre rest
  | pre, (filename, .dir _ sub) :: rest =>
    recPaths (pre ++ filename ++ "/") sub ++
    ((pre ++ filename) :: recPaths pre rest)

/-- The snapshot keys the amended C6 predicts: with recursive false the names
of the direct children of the root, files and directories alike; with
recursive true the relative path of every descendant entry, files and
directories alike. -/
def allEntryPaths (recursive : Bool) (pre : String)
    (es : List (String × FSEntry)) : List String :=
  if recursive then recPaths pre es else es.map (fun ne => pre ++ ne.1)

/-- A subprocess.run stand-in that succeeds with exit code zero and empty
output streams. -/
def runOK0 : String → String → Except String RunResult :=
  fun _ _ => .ok ⟨0, "", ""⟩

/-- A subprocess.run stand-in for a script that cannot be launched: it raises
FileNotFoundError. -/
def runFail : String → String → Except String RunResult :=
  fun _ _ => .error "FileNotFoundError"

theorem map_fst_query_true (pre : String) (es : List (String × FSEntry)) :
    (query_last_updates true pre es).map Prod.fst = recPaths pre es := by
  induction pre, es using query_last_updates.induct true with
  | case1 _ => simp [query_last_updates, recPaths]
  | case2 pre filename entry rest ih1 ih2 =>
    cases entry with
    | file t => simp [query_last_updates, recPaths, ih2]
    | dir t sub =>
      simp only at ih1
      simp [query_last_updates, recPaths, ih1, ih2]

theorem map_fst_query_false (pre : String) (es : List (String × FSEntry)) :
    (query_last_updates false pre es).map Prod.fst =
      es.map (fun ne => pre ++ ne.1) := by
  induction pre, es using query_last_updates.induct false with
  | case1 _ => simp [query_last_updates]
  | case2 pre filename entry rest ih1 ih2 =>
    cases entry with
    | file t => simp [query_last_updates, ih2]
    | dir t sub => simp [query_last_updates, ih2]

theorem dictGet?_dictSet_self {α : Type} (d : List (String × α)) (k : String)
    (v : α) : dictGet? (dictSet d k v) k = some v := by
  induction d with
  | nil => simp [dictSet, dictGet?]
  | cons hd tl ih =>
    obtain ⟨k0, v0⟩ := hd
    by_cases h : k0 = k
    · simp [dictSet, dictGet?, h]
    · simp [dictSet, dictGet?, h, ih]

theorem dictGet?_dictSet_ne {α : Type} (d : List (String × α)) (k q : String)
    (v : α) (hq : q ≠ k) : dictGet? (dictSet d k v) q = dictGet? d q := by
  induction d with
  | nil => simp [dictSet, dictGet?, Ne.symm hq]
  | cons hd tl ih =>
    obtain ⟨k0, v0⟩ := hd
    by_cases h : k0 = k
    · subst h
      simp [dictSet, dictGet?, Ne.symm hq]
    · simp [dictSet, dictGet?, h, ih]

theorem dictMem_iff_mem_keys {α : Type} (d : List (String × α)) (k : String) :
    dictMem d k = true ↔ k ∈ d.map Prod.fst := by
  induction d with
  | nil => simp [dictMem, dictGet?]
  | cons hd tl ih =>
    obtain ⟨k0, v0⟩ := hd
    by_cases h : k0 = k
    · subst h
      simp [dictMem, dictGet?]
    · have h1 : dictMem ((k0, v0) :: tl) k = dictMem tl k := by
        simp [dictMem, dictGet?, h]
      rw [h1, ih, List.map_cons, List.mem_cons]
      constructor
      · exact fun hmem => Or.inr hmem
      · intro hor
        cases hor with
        | inl heq => exact absurd heq.symm h
        | inr hmem => exact hmem

theorem keys_dictSet {α : Type} (d : List (String × α)) (k : String) (v : α) :
    (dictSet d k v).map Prod.fst =
      if dictMem d k then d.map Prod.fst else d.map Prod.fst ++ [k] := by
  induction d with
  | nil => simp [dictSet, dictMem, dictGet?]
  | cons hd tl ih =>
    obtain ⟨k0, v0⟩ := hd
    by_cases h : k0 = k
    · subst h
      simp [dictSet, dictMem, dictGet?]
    · have h2 : dictMem ((k0, v0) :: tl) k = dictMem tl k := by
        simp [dictMem, dictGet?, h]
      rw [h2]
      rw [show dictSet ((k0, v0) :: tl) k v = (k0, v0) :: dictSet tl k v from by
        simp [dictSet, h]]
      rw [List.map_cons, ih]
      by_cases hm : dictMem tl k
      · rw [if_pos hm, if_pos hm, List.map_cons]
      · rw [if_neg hm, if_neg hm, List.map_cons, List.cons_append]

theorem nodup_keys_dictSet {α : Type} (d : List (String × α)) (k : String)
    (v : α) (h : (d.map Prod.fst).Nodup) :
    ((dictSet d k v).map Prod.fst).Nodup := by
  rw [keys_dictSet]
  by_cases hm : dictMem d k
  · simpa [hm] using h
  · have hk : k ∉ d.map Prod.fst := by
      intro hmem
      exact hm ((dictMem_iff_mem_keys d k).mpr hmem)
    simp [hm, List.nodup_append, h, hk]

theorem nodup_keys_read_handlers_loop :
    ∀ (configs : List HandlerConfig) (acc hs : List (String × Handler)),
      (acc.map Prod.fst).Nodup → read_handlers_loop configs acc = .ok hs →
      (hs.map Prod.fst).Nodup := by
  intro configs
  induction configs with
  | nil =>
    intro acc hs hn heq
    simp only [read_handlers_loop] at heq
    cases heq
    exact hn
  | cons c rest ih =>
    intro acc hs hn heq
    simp only [read_handlers_loop] at heq
    cases hmap : c.actions.mapM Action.ofName with
    | error e =>
      rw [hmap] at heq
      cases heq
    | ok acts =>
      rw [hmap] at heq
      exact ih _ hs (nodup_keys_dictSet _ _ _ hn) heq

/-- C1: the claim says diff(old, new) yields DELETE for the paths of old
absent from new, CREATE for the paths of new absent from old, UPDATE for
shared paths with strictly greater new timestamp, and nothing else. The code
is wrong on the DELETE part: the first loop of get_changes stores "DELETE"
and then, lacking an elif, immediately evaluates new_states[file_path], which
raises KeyError for exactly those paths. On pairs without a deleted path the
remaining clauses behave as claimed, as the second conjunct shows on a pair
exercising CREATE, UPDATE, an equal timestamp, and a decreased timestamp. -/
theorem C1_diff_delete_raises :
    get_changes [("a", 0)] [] = .error "KeyError: a" ∧
    get_changes [("a", 0), ("b", 1), ("c", 5)]
        [("a", 0), ("b", 3), ("c", 4), ("d", 9)]
      = .ok [("b", "UPDATE"), ("d", "CREATE")] :=
  ⟨rfl, rfl⟩

/-- C2: the claim says diff is total and every map lookup it performs is in
domain. The code is wrong: for any pair with a path of old absent from new,
the unguarded lookup new_states[file_path] on line 97 is out of domain and
raises KeyError, so the error branch is reachable. -/
theorem C2_diff_lookup_out_of_domain :
    get_changes [("a", 0), ("b", 1)] [("b", 1)] = .error "KeyError: a" :=
  rfl

/-- C3: the claim says dispatch fires exactly the handlers whose pattern
matches and whose accepted-action set contains the action of the record, and
on the two quoted rules a CREATE of draft.pdf fires only scriptB and an
UPDATE of final.pdf fires only scriptA. The code is wrong: get_changes stores
the action as a string while read_handlers stores Action enum members, and
Python equality between the two is always False, so the membership test on
line 109 never succeeds and no handler ever fires; had it succeeded, the call
handler.process_update(file_path) on line 110 would raise TypeError for the
missing positional argument action. The conjuncts show the diff producing the
CREATE record, both patterns matching as the claim expects, the membership
test failing on matching action kinds, and both dispatch scenarios of the
claim completing with zero launches. -/
theorem C3_dispatch_never_fires :
    get_changes [] [("draft.pdf", 1)] = .ok [("draft.pdf", "CREATE")] ∧
    re_search "draft" "draft.pdf" = true ∧
    re_search "\\.pdf$" "draft.pdf" = true ∧
    re_search "\\.pdf$" "final.pdf" = true ∧
    pyMem (.str "CREATE") [.act .CREATE, .act .DELETE] = false ∧
    pyMem (.str "UPDATE") [.act .UPDATE] = false ∧
    process_changes [("draft.pdf", PyVal.str "CREATE")]
        [("\\.pdf$", ⟨[.act .UPDATE], "scriptA"⟩),
         ("draft", ⟨[.act .CREATE, .act .DELETE], "scriptB"⟩)]
      = .ok [] ∧
    process_changes [("final.pdf", PyVal.str "UPDATE")]
        [("\\.pdf$", ⟨[.act .UPDATE], "scriptA"⟩),
         ("draft", ⟨[.act .CREATE, .act .DELETE], "scriptB"⟩)]
      = .ok [] :=
  ⟨rfl, rfl, rfl, rfl, rfl, rfl, rfl, rfl⟩

/-- C4 counterexample: a trigger of the same path within a second is not
skipped entirely as the claim states: process_update emits the action log
line before the debounce check, so the suppressed invocation still produces a
log line (while launching nothing and leaving the debounce state unchanged). -/
theorem C4_suppressed_invocation_still_logs :
    process_update runOK0 "scriptA" ⟨some "a.txt", 10⟩ 10 "a.txt" Action.UPDATE
      = .ok (⟨some "a.txt", 10⟩, ["File UPDATE: a.txt"], []) ∧
    (["File UPDATE: a.txt"] : List String) ≠ [] := by
  constructor
  · unfold process_update
    rw [if_pos ⟨rfl, by norm_num⟩]
    rfl
  · simp

/-- C4 amended: a trigger fires the command when the path differs from the
last-triggered path or at least one second elapsed, and a handler with no
prior trigger always fires; when the path equals the last-triggered path and
under one second elapsed, the process launch and the result log lines are
skipped and the debounce state is unchanged, but the action log line is still
emitted, so the suppressed invocation produces exactly that one log line
rather than none. -/
theorem C4_debounce_amended (run : String → String → Except String RunResult)
    (script : String) (h : HandlerState) (now : ℚ) (p : String) (a : Action)
    (res : RunResult) (hrun : run script p = .ok res) :
    (h.last_file = some p ∧ now - h.last_update < 1 →
      process_update run script h now p a =
        .ok (h, ["File " ++ a.name ++ ": " ++ p], [])) ∧
    (¬ (h.last_file = some p ∧ now - h.last_update < 1) →
      ∃ logs, process_update run script h now p a =
          .ok (⟨some p, now⟩, logs, [(script, p)]) ∧
        logs.head? = some ("File " ++ a.name ++ ": " ++ p)) := by
  constructor
  · intro hcond
    unfold process_update
    rw [if_pos hcond]
  · intro hcond
    unfold process_update
    rw [if_neg hcond, hrun]
    exact ⟨_, rfl, rfl⟩

/-- C4 witness: the amended debounce theorem applied to a handler with no
prior trigger (last_file none), which therefore fires. -/
theorem C4_debounce_amended_witness :
    ((⟨none, 0⟩ : HandlerState).last_file = some "x" ∧
        (2 : ℚ) - (⟨none, 0⟩ : HandlerState).last_update < 1 →
      process_update runOK0 "s" ⟨none, 0⟩ 2 "x" Action.CREATE =
        .ok (⟨none, 0⟩, ["File " ++ Action.CREATE.name ++ ": " ++ "x"], [])) ∧
    (¬ ((⟨none, 0⟩ : HandlerState).last_file = some "x" ∧
        (2 : ℚ) - (⟨none, 0⟩ : HandlerState).last_update < 1) →
      ∃ logs, process_update runOK0 "s" ⟨none, 0⟩ 2 "x" Action.CREATE =
          .ok (⟨some "x", 2⟩, logs, [("s", "x")]) ∧
        logs.head? = some ("File " ++ Action.CREATE.name ++ ": " ++ "x")) :=
  C4_debounce_amended runOK0 "s" ⟨none, 0⟩ 2 "x" Action.CREATE ⟨0, "", ""⟩ rfl

/-- C5 counterexample: a completed tick whose capture succeeds and whose diff
is empty keeps the old baseline instead of replacing it with the captured
snapshot. Here the captured timestamp decreased, so the diff is empty while
the two snapshots differ, and the baseline after the tick is the old one. -/
theorem C5_empty_diff_keeps_old_baseline :
    get_changes [("a", 5)] [("a", 3)] = .ok [] ∧
    tick (.ok [("a", 3)]) [("a", 5)] [] = .ok ([("a", 5)], false) ∧
    ([("a", 5)] : Snapshot) ≠ [("a", 3)] :=
  ⟨rfl, rfl, by decide⟩

/-- C5 amended: after a tick whose capture succeeds, the baseline is replaced
with the captured snapshot exactly when the change set is nonempty and
dispatch completes; when the change set is empty the baseline keeps its old
value, which subsequent diffs are then taken against. -/
theorem C5_baseline_amended (snap base : Snapshot)
    (H : List (String × Handler)) (changes : Changes)
    (hc : get_changes base snap = .ok changes) :
    (changes = [] → tick (.ok snap) base H = .ok (base, false)) ∧
    (∀ launches, changes ≠ [] →
      process_changes (changes.map (fun kv => (kv.1, PyVal.str kv.2))) H
        = .ok launches →
      tick (.ok snap) base H = .ok (snap, true)) := by
  constructor
  · intro he
    simp [tick, hc, he]
  · intro launches hne hpc
    simp [tick, hc, hne, hpc]

/-- C5 witness: the amended baseline theorem applied to the empty-diff pair
of the counterexample. -/
theorem C5_baseline_amended_witness :
    (([] : Changes) = [] →
      tick (.ok [("a", 3)]) [("a", 5)] [] = .ok ([("a", 5)], false)) ∧
    (∀ launches, ([] : Changes) ≠ [] →
      process_changes (([] : Changes).map (fun kv => (kv.1, PyVal.str kv.2))) []
        = .ok launches →
      tick (.ok [("a", 3)]) [("a", 5)] [] = .ok ([("a", 3)], true)) :=
  C5_baseline_amended [("a", 3)] [("a", 5)] [] [] rfl

/-- C6 counterexample: on a root holding one directory d with one file f, the
recursive snapshot keys are d/f and d, so the directory d is itself an entry,
while the claim predicts keys corresponding exactly to the files, here just
d/f; non-recursively the only key is the directory d while the claim predicts
no key at all. -/
theorem C6_directory_is_an_entry :
    (query_last_updates true "" [("d", FSEntry.dir 1 [("f", FSEntry.file 2)])]).map
        Prod.fst = ["d/f", "d"] ∧
    filePaths true "" [("d", FSEntry.dir 1 [("f", FSEntry.file 2)])] = ["d/f"] ∧
    (query_last_updates false "" [("d", FSEntry.dir 1 [("f", FSEntry.file 2)])]).map
        Prod.fst = ["d"] ∧
    filePaths false "" [("d", FSEntry.dir 1 [("f", FSEntry.file 2)])] = [] ∧
    (["d/f", "d"] : List String) ≠ ["d/f"] :=
  ⟨by simp [query_last_updates, FSEntry.mtime],
   by simp [filePaths],
   by simp [query_last_updates, FSEntry.mtime],
   by simp [filePaths],
   by simp⟩

/-- C6 amended: the snapshot keys are exactly the relative slash-joined paths
of every visited entry, directories included: with recursive false the names
of the direct children of the root, files and directories alike; with
recursive true the relative path of every descendant entry, each directory
keyed in addition to its contents. -/
theorem C6_snapshot_keys_amended (recursive : Bool) (pre : String)
    (es : List (String × FSEntry)) :
    (query_last_updates recursive pre es).map Prod.fst =
      allEntryPaths recursive pre es := by
  cases recursive with
  | true => simpa [allEntryPaths] using map_fst_query_true pre es
  | false => simpa [allEntryPaths] using map_fst_query_false pre es

/-- C7 counterexample: a failure to launch the command is not a logged local
failure as the claim states: subprocess.run raises inside process_update,
nothing catches the exception anywhere in the program, and the invocation
ends as an uncaught error carrying no log output, which aborts the caller
rather than being contained. -/
theorem C7_launch_failure_uncaught :
    process_update runFail "scriptA" ⟨none, 0⟩ 5 "a.txt" Action.UPDATE
      = .error "FileNotFoundError" :=
  rfl

/-- C7 amended: when the debounce check does not suppress the invocation and
the launch fails, process_update propagates the launch exception unchanged:
no error log line is emitted and no result is returned, and since neither
process_changes nor the polling loop installs an exception handler, the
exception would abort the remaining handler invocations of the tick and the
loop itself rather than being local. -/
theorem C7_launch_error_amended (run : String → String → Except String RunResult)
    (script p e : String) (a : Action) (h : HandlerState) (now : ℚ)
    (hfire : ¬ (h.last_file = some p ∧ now - h.last_update < 1))
    (hrun : run script p = .error e) :
    process_update run script h now p a = .error e := by
  unfold process_update
  rw [if_neg hfire, hrun]

/-- C7 witness: the amended launch-error theorem applied to a fresh handler
and a script that cannot be launched. -/
theorem C7_launch_error_amended_witness :
    process_update runFail "s" ⟨none, 0⟩ 7 "x" Action.DELETE
      = .error "FileNotFoundError" :=
  C7_launch_error_amended runFail "s" "x" "FileNotFoundError" Action.DELETE
    ⟨none, 0⟩ 7 (fun hcon => Option.noConfusion hcon.1) rfl

/-- C8 counterexample: a capture failure during a tick is fatal, not skipped:
the OSError propagates out of the loop body uncaught and the polling loop
ends, so the following tick, which would have produced an UPDATE and a new
baseline had the loop continued, never runs. -/
theorem C8_capture_failure_kills_loop :
    tick (.error "OSError") [("a", 0)] [] = .error "OSError" ∧
    pollLoop [] [.error "OSError", .ok [("a", 1)]] [("a", 0)]
      = .error "OSError" ∧
    pollLoop [] [.ok [("a", 1)]] [("a", 0)] = .ok [("a", 1)] :=
  ⟨rfl, rfl, rfl⟩

/-- C8 amended: an I/O failure capturing a snapshot during the running loop
is an uncaught exception: the tick ends with that error and the polling loop
terminates at that tick with the baseline unchanged; the remaining ticks
never run. -/
theorem C8_capture_error_amended (e : String)
    (rest : List (Except String Snapshot)) (base : Snapshot)
    (H : List (String × Handler)) :
    tick (.error e) base H = .error e ∧
    pollLoop H (.error e :: rest) base = .error e :=
  ⟨rfl, rfl⟩

/-- C9 counterexample: calling start on an already running observer is
neither a no-op nor an error: it starts one more polling thread, so two calls
leave two active polling loops. -/
theorem C9_start_not_guarded :
    start { running := true, threadsStarted := 1 }
      = { running := true, threadsStarted := 2 } ∧
    start { running := true, threadsStarted := 1 }
      ≠ { running := true, threadsStarted := 1 } :=
  ⟨rfl, by decide⟩

/-- C9 amended: start is not guarded against re-entry: every call, also from
the Running state, sets the running flag and launches one additional polling
thread, so n calls produce n concurrently active polling loops. -/
theorem C9_start_amended (s : ObserverLifecycle) :
    start s = { running := true, threadsStarted := s.threadsStarted + 1 } ∧
    (start (start s)).threadsStarted = s.threadsStarted + 2 :=
  ⟨rfl, rfl⟩

/-- C10: the handler registry maps each pattern to at most one rule. The
registry built by read_handlers from any configuration has pairwise distinct
patterns; add_handler on a registry with distinct patterns stores the new
handler under its pattern, replacing any previous one, leaves other patterns
untouched, and keeps the patterns distinct, so two rules with the same
pattern never coexist. -/
theorem C10_pattern_unique (configs : List HandlerConfig)
    (hs d : List (String × Handler)) (p q : String) (v : Handler)
    (hok : read_handlers configs = .ok hs)
    (hd : (d.map Prod.fst).Nodup) :
    (hs.map Prod.fst).Nodup ∧
    dictGet? (add_handler d p v) p = some v ∧
    ((add_handler d p v).map Prod.fst).Nodup ∧
    (q ≠ p → dictGet? (add_handler d p v) q = dictGet? d q) :=
  ⟨nodup_keys_read_handlers_loop configs [] hs (by simp) hok,
   dictGet?_dictSet_self d p v,
   nodup_keys_dictSet d p v hd,
   fun hq => dictGet?_dictSet_ne d p q v hq⟩

/-- C10 witness: the registry theorem applied to a configuration that
registers the pattern draft twice (the second registration wins) and to an
add_handler call that overwrites an existing pattern. -/
theorem C10_pattern_unique_witness :
    (([("draft", (⟨[PyVal.act Action.DELETE], "c.sh"⟩ : Handler))].map
        Prod.fst)).Nodup ∧
    dictGet? (add_handler [("x", ⟨[], "a.sh"⟩)] "x" ⟨[], "z.sh"⟩) "x"
      = some ⟨[], "z.sh"⟩ ∧
    ((add_handler [("x", ⟨[], "a.sh"⟩)] "x" ⟨[], "z.sh"⟩).map Prod.fst).Nodup ∧
    ("y" ≠ "x" →
      dictGet? (add_handler [("x", ⟨[], "a.sh"⟩)] "x" ⟨[], "z.sh"⟩) "y"
        = dictGet? [("x", ⟨[], "a.sh"⟩)] "y") :=
  C10_pattern_unique
    [⟨"draft", ["CREATE"], "b.sh"⟩, ⟨"draft", ["DELETE"], "c.sh"⟩]
    [("draft", ⟨[PyVal.act Action.DELETE], "c.sh"⟩)]
    [("x", ⟨[], "a.sh"⟩)] "x" "y" ⟨[], "z.sh"⟩ rfl (by simp)

end FigSync
